import Mathlib

/-!
Shallow embedding of the Input-Share repository (a Windows mouse/keyboard
sharing tool): the wire codec (`common.hpp`), the primary-side focus
controller and low-level hooks (`gui_app.cpp` server callbacks,
`input_capture.hpp`), the secondary-side event application
(`gui_app.cpp` client loop), the discovery/topology upsert
(`gui_app.cpp` discovery thread) and the scroll pipeline
(`input_capture.hpp` / `input_simulator.hpp`).

Machine integers are modelled as `Int`/`Nat` with explicit reductions
mod 2^w where the C++ code relies on fixed width.  Bytes are `Nat`s that
the encoders always produce `< 256`.
-/

namespace InputShare

/-- C++ integer division truncates toward zero; Lean's `/` on `Int` is
Euclidean division.  `cdiv a b` models C++ `a / b` for `b > 0`. -/
def cdiv (a b : Int) : Int := if 0 ≤ a then a / b else -((-a) / b)

/-- Clamp as written in the sources: `(std::max)(lo, (std::min)(v, hi))`. -/
def cppClamp (lo v hi : Int) : Int := max lo (min v hi)

/-! ## Wire codec (`common.hpp` serialize_packet / client frame parsing)

Types and byte layouts follow `common.hpp`: packed little-endian structs,
a 9-byte header `{version:u16, type:u8, timestamp:u32, payload_size:u16}`.
-/

/-- `EventType` numeric values from `common.hpp`. -/
def TY_MOUSE_MOVE : Nat := 1
def TY_MOUSE_BUTTON : Nat := 2
def TY_MOUSE_SCROLL : Nat := 3
def TY_KEY_PRESS : Nat := 4
def TY_KEY_RELEASE : Nat := 5
def TY_CLIPBOARD : Nat := 6
def TY_KEEPALIVE : Nat := 7
def TY_SCREEN_INFO : Nat := 8
def TY_SWITCH_SCREEN : Nat := 9

/-- `enum class MouseButton : uint8_t` from `common.hpp`. -/
inductive MouseBtn where
  | left
  | middle
  | right
  | button4
  | button5
deriving DecidableEq, Repr

def MouseBtn.toByte : MouseBtn → Nat
  | .left => 1
  | .middle => 2
  | .right => 3
  | .button4 => 4
  | .button5 => 5

/-- Reading the button byte back.  The C++ code reinterprets the byte as the
enum unchecked; a value outside 1..5 drives no case of the injector's
switch, so we surface it as `none`. -/
def MouseBtn.ofByte : Nat → Option MouseBtn
  | 1 => some .left
  | 2 => some .middle
  | 3 => some .right
  | 4 => some .button4
  | 5 => some .button5
  | _ => none

/-- `enum class ScreenEdge : uint8_t` from `common.hpp`. -/
inductive ScreenEdge where
  | none
  | left
  | right
  | top
  | bottom
deriving DecidableEq, Repr

def ScreenEdge.toByte : ScreenEdge → Nat
  | .none => 0
  | .left => 1
  | .right => 2
  | .top => 3
  | .bottom => 4

def ScreenEdge.ofByte : Nat → Option ScreenEdge
  | 0 => some .none
  | 1 => some .left
  | 2 => some .right
  | 3 => some .top
  | 4 => some .bottom
  | _ => none

/-- The tagged union of protocol events (spec §3; payload structs of
`common.hpp`).  `Key` carries `pressed` because the wire encodes it in the
frame type (`KEY_PRESS` / `KEY_RELEASE`).  `ScreenInfo` has the four
fields of the C++ struct. -/
inductive Event where
  | mouseMove (x y dx dy : Int)
  | mouseButton (button : MouseBtn) (pressed : Bool)
  | mouseScroll (dx dy : Int)
  | key (vk scan flags : Nat) (pressed : Bool)
  | screenInfo (width height x y : Int)
  | switchScreen (edge : ScreenEdge) (position : Int)
  | keepalive
deriving DecidableEq, Repr

/-- Little-endian bytes of a `u16`. -/
def u16Bytes (v : Nat) : List Nat := [v % 256, v / 256 % 256]

/-- Little-endian bytes of a `u32`. -/
def u32Bytes (v : Nat) : List Nat :=
  [v % 256, v / 256 % 256, v / 65536 % 256, v / 16777216 % 256]

/-- Little-endian bytes of an `i32` (two's complement). -/
def i32Bytes (v : Int) : List Nat := u32Bytes (v % 4294967296).toNat

def dec16 (b0 b1 : Nat) : Nat := b0 + 256 * b1

def dec32 (b0 b1 b2 b3 : Nat) : Nat :=
  b0 + 256 * b1 + 65536 * b2 + 16777216 * b3

/-- Reinterpret a `u32` value as a signed `i32`. -/
def asI32 (n : Nat) : Int := if n < 2147483648 then (n : Int) else (n : Int) - 4294967296

/-- C++ `bool` serialized as one byte; reading any nonzero byte yields true. -/
def boolByte (b : Bool) : Nat := if b then 1 else 0

/-- Payload bytes of an event, mirroring the packed structs
(`MouseMoveEvent`, `MouseButtonEvent`, `MouseScrollEvent`, `KeyEvent`,
`ScreenInfo`, `SwitchScreenEvent`) that `serialize_packet` memcpy's. -/
def payloadBytes : Event → List Nat
  | .mouseMove x y dx dy => i32Bytes x ++ i32Bytes y ++ i32Bytes dx ++ i32Bytes dy
  | .mouseButton b p => [b.toByte, boolByte p]
  | .mouseScroll dx dy => i32Bytes dx ++ i32Bytes dy
  | .key vk scan flags _ => u32Bytes vk ++ u32Bytes scan ++ u32Bytes flags
  | .screenInfo w h x y => i32Bytes w ++ i32Bytes h ++ i32Bytes x ++ i32Bytes y
  | .switchScreen e pos => [e.toByte] ++ i32Bytes pos
  | .keepalive => []

/-- The frame type byte chosen by the senders for each event
(`serialize_packet` call sites; `KEY_PRESS` vs `KEY_RELEASE` picked from
`pressed`). -/
def typeByte : Event → Nat
  | .mouseMove _ _ _ _ => TY_MOUSE_MOVE
  | .mouseButton _ _ => TY_MOUSE_BUTTON
  | .mouseScroll _ _ => TY_MOUSE_SCROLL
  | .key _ _ _ p => if p then TY_KEY_PRESS else TY_KEY_RELEASE
  | .screenInfo _ _ _ _ => TY_SCREEN_INFO
  | .switchScreen _ _ => TY_SWITCH_SCREEN
  | .keepalive => TY_KEEPALIVE

/-- `serialize_packet` / `serialize_keepalive` from `common.hpp`:
9-byte header (version = 1) followed by the payload. -/
def encodeFrame (e : Event) (timestamp : Nat) : List Nat :=
  let payload := payloadBytes e
  u16Bytes 1 ++ [typeByte e] ++ u32Bytes timestamp ++ u16Bytes payload.length ++ payload

structure PacketHeader where
  version : Nat
  ptype : Nat
  timestamp : Nat
  payload_size : Nat
deriving DecidableEq, Repr

/-- Reading a 9-byte header off the stream (`recv_exact(&header, 9)`). -/
def parseHeader : List Nat → Option (PacketHeader × List Nat)
  | v0 :: v1 :: t :: s0 :: s1 :: s2 :: s3 :: p0 :: p1 :: rest =>
      some (⟨dec16 v0 v1, t, dec32 s0 s1 s2 s3, dec16 p0 p1⟩, rest)
  | _ => none

/-- Outcome of one iteration of the client receive loop for one frame. -/
inductive DecodeResult where
  /-- The dispatch reached an injector call carrying this event. -/
  | event (e : Event)
  /-- The frame was consumed without delivering an event (a `break` out of
  the dispatch switch, or an unhandled type). -/
  | ignored
  /-- The loop `break`s: the connection is abandoned. -/
  | rejected
deriving DecidableEq, Repr

/-- The dispatch switch of `client_thread_func` (gui_app.cpp).  Input
events are applied only while `active`; the per-type `payload.size() <
sizeof(...)` guards `break` out of the switch (frame skipped, connection
kept) — here the wildcard match arms — and a payload longer than the
struct is accepted with the trailing bytes unread — here the trailing
`_` of each pattern.  `SWITCH_SCREEN` is handled regardless of `active`;
`CLIPBOARD`, `KEEPALIVE`, `SCREEN_INFO` and unknown types fall to
`default`. -/
def dispatchFrame (active : Bool) (ty : Nat) (payload : List Nat) : DecodeResult :=
  if ty = TY_MOUSE_MOVE then
    if !active then .ignored
    else match payload with
      | a0 :: a1 :: a2 :: a3 :: b0 :: b1 :: b2 :: b3 ::
        c0 :: c1 :: c2 :: c3 :: d0 :: d1 :: d2 :: d3 :: _ =>
          .event (.mouseMove (asI32 (dec32 a0 a1 a2 a3)) (asI32 (dec32 b0 b1 b2 b3))
            (asI32 (dec32 c0 c1 c2 c3)) (asI32 (dec32 d0 d1 d2 d3)))
      | _ => .ignored
  else if ty = TY_MOUSE_BUTTON then
    if !active then .ignored
    else match payload with
      | bb :: pb :: _ =>
        match MouseBtn.ofByte bb with
        | some b => .event (.mouseButton b (pb ≠ 0))
        | none => .ignored
      | _ => .ignored
  else if ty = TY_MOUSE_SCROLL then
    if !active then .ignored
    else match payload with
      | a0 :: a1 :: a2 :: a3 :: b0 :: b1 :: b2 :: b3 :: _ =>
          .event (.mouseScroll (asI32 (dec32 a0 a1 a2 a3)) (asI32 (dec32 b0 b1 b2 b3)))
      | _ => .ignored
  else if ty = TY_KEY_PRESS ∨ ty = TY_KEY_RELEASE then
    if !active then .ignored
    else match payload with
      | a0 :: a1 :: a2 :: a3 :: b0 :: b1 :: b2 :: b3 :: c0 :: c1 :: c2 :: c3 :: _ =>
          .event (.key (dec32 a0 a1 a2 a3) (dec32 b0 b1 b2 b3) (dec32 c0 c1 c2 c3)
            (ty = TY_KEY_PRESS))
      | _ => .ignored
  else if ty = TY_SWITCH_SCREEN then
    match payload with
    | eb :: p0 :: p1 :: p2 :: p3 :: _ =>
      match ScreenEdge.ofByte eb with
      | some e => .event (.switchScreen e (asI32 (dec32 p0 p1 p2 p3)))
      | none => .ignored
    | _ => .ignored
  else .ignored

/-- One frame through the client receive loop (gui_app.cpp lines 696-818):
read a 9-byte header, reject `payload_size > 65535` (break), reject a
payload shorter than declared (`recv_exact` fails, break), then dispatch.
Note the header `version` is parsed but never examined. -/
def decodeFrame (active : Bool) (bytes : List Nat) : DecodeResult :=
  match parseHeader bytes with
  | none => .rejected
  | some (h, rest) =>
    if h.payload_size > 65535 then .rejected
    else if rest.length < h.payload_size then .rejected
    else dispatchFrame active h.ptype (rest.take h.payload_size)

/-- Range constraints under which the C++ fixed-width fields represent the
event's values exactly. -/
def wfEvent : Event → Prop
  | .mouseMove x y dx dy =>
      (-2147483648 ≤ x ∧ x < 2147483648) ∧ (-2147483648 ≤ y ∧ y < 2147483648) ∧
      (-2147483648 ≤ dx ∧ dx < 2147483648) ∧ (-2147483648 ≤ dy ∧ dy < 2147483648)
  | .mouseButton _ _ => True
  | .mouseScroll dx dy =>
      (-2147483648 ≤ dx ∧ dx < 2147483648) ∧ (-2147483648 ≤ dy ∧ dy < 2147483648)
  | .key vk scan flags _ => vk < 4294967296 ∧ scan < 4294967296 ∧ flags < 4294967296
  | .screenInfo w h x y =>
      (-2147483648 ≤ w ∧ w < 2147483648) ∧ (-2147483648 ≤ h ∧ h < 2147483648) ∧
      (-2147483648 ≤ x ∧ x < 2147483648) ∧ (-2147483648 ≤ y ∧ y < 2147483648)
  | .switchScreen _ pos => -2147483648 ≤ pos ∧ pos < 2147483648
  | .keepalive => True

instance : DecidablePred wfEvent := by
  intro e
  cases e <;> simp [wfEvent] <;> infer_instance

/-- The frame types for which the client dispatch actually constructs an
event (`ScreenInfo` and `Keepalive` frames fall to the `default` case). -/
def delivered : Event → Bool
  | .screenInfo _ _ _ _ => false
  | .keepalive => false
  | _ => true

/-! ## Discovery & topology (`gui_app.cpp` discovery_thread_func) -/

/-- `ComputerInfo` from gui_app.cpp. -/
structure ComputerInfo where
  name : String
  ip : String
  port : Nat
  screen_width : Int
  screen_height : Int
  is_server : Bool
  is_connected : Bool
  last_seen : Nat
  layout_x : Int
  layout_y : Int
deriving DecidableEq, Repr

/-- `DiscoveryPacket` from gui_app.cpp (the fixed 79-byte layout; the
`magic` field modelled as the four characters). -/
structure DiscoveryPacket where
  magic : String
  dtype : Nat
  port : Nat
  screen_width : Int
  screen_height : Int
  is_server : Nat
  name : String
deriving DecidableEq, Repr

/-- In-place update of the first computer whose name matches, exactly the
fields the receive loop assigns (ip, port, dims, is_server, last_seen). -/
def updateComputer (p : DiscoveryPacket) (ip : String) (now : Nat) :
    List ComputerInfo → List ComputerInfo
  | [] => []
  | c :: cs =>
    if c.name = p.name then
      { c with ip := ip, port := p.port, screen_width := p.screen_width,
               screen_height := p.screen_height, is_server := p.is_server = 1,
               last_seen := now } :: cs
    else c :: updateComputer p ip now cs

/-- `max_x` scan: `max_x = max(max_x, c.layout_x + c.screen_width)` over all
computers, starting from 0. -/
def maxRight (comps : List ComputerInfo) : Int :=
  comps.foldl (fun acc c => max acc (c.layout_x + c.screen_width)) 0

/-- Handling of one received discovery packet (gui_app.cpp lines 248-299):
drop non-`MSHR` packets, drop self-packets by name, update an existing
entry, or append a new one positioned `maxRight + 50`, `layout_y = 0`. -/
def processPacket (localName : String) (now : Nat) (ip : String)
    (comps : List ComputerInfo) (p : DiscoveryPacket) : List ComputerInfo :=
  if p.magic ≠ "MSHR" then comps
  else if p.name = localName then comps
  else if comps.any (fun c => c.name = p.name) then updateComputer p ip now comps
  else
    comps ++ [{ name := p.name, ip := ip, port := p.port,
                screen_width := p.screen_width, screen_height := p.screen_height,
                is_server := p.is_server = 1, is_connected := false,
                last_seen := now, layout_x := maxRight comps + 50, layout_y := 0 }]

/-- The stale-computer reap (gui_app.cpp lines 303-316): erase entries with
a nonempty name other than the local name not seen for more than 10 000 ms.
`GetTickCount` subtraction is unsigned; with `now ≥ last_seen` it is `Nat`
subtraction. -/
def reapStale (localName : String) (now : Nat)
    (comps : List ComputerInfo) : List ComputerInfo :=
  comps.filter (fun c => !(c.name ≠ "" ∧ c.name ≠ localName ∧ now - c.last_seen > 10000 : Bool))

/-! ## Primary-side focus controller (`gui_app.cpp` server_thread_func
callbacks and `input_capture.hpp` hooks)

The canonical primary state is the pair of the app's `active_on_remote`
flag (focus: `false` = LOCAL, `true` = REMOTE) and the interceptor's
`captured_` flag (suppress).  Callbacks run serialized on the hook
thread, so one callback invocation is one atomic step.  Whether
`active_client.is_valid()` holds and whether a `send` succeeds are
environment inputs of a step. -/

structure PrimaryState where
  active_on_remote : Bool
  captured : Bool
deriving DecidableEq, Repr

/-- Edge detection of the mouse-move callback (gui_app.cpp lines 350-366):
checked in the order LEFT, RIGHT, TOP, BOTTOM; the second component is
`edge_position` (`y` for LEFT/RIGHT, `x` for TOP/BOTTOM, 0 if no edge). -/
def computeEdge (w h x y : Int) : ScreenEdge × Int :=
  if x ≤ 0 then (.left, y)
  else if x ≥ w - 1 then (.right, y)
  else if y ≤ 0 then (.top, x)
  else if y ≥ h - 1 then (.bottom, x)
  else (.none, 0)

/-- The per-computer neighbor test of the mouse-move callback
(gui_app.cpp lines 381-405), for a cursor at `edge_position` `pos`. -/
def isNeighborAt (localInfo : ComputerInfo) (edge : ScreenEdge) (pos : Int)
    (comp : ComputerInfo) : Bool :=
  let lx := localInfo.layout_x
  let ly := localInfo.layout_y
  let lw := localInfo.screen_width
  let lh := localInfo.screen_height
  match edge with
  | .right =>
      comp.layout_x = lx + lw ∧ comp.layout_y ≤ ly + pos ∧
      comp.layout_y + comp.screen_height > ly + pos
  | .left =>
      comp.layout_x + comp.screen_width = lx ∧ comp.layout_y ≤ ly + pos ∧
      comp.layout_y + comp.screen_height > ly + pos
  | .bottom =>
      comp.layout_y = ly + lh ∧ comp.layout_x ≤ lx + pos ∧
      comp.layout_x + comp.screen_width > lx + pos
  | .top =>
      comp.layout_y + comp.screen_height = ly ∧ comp.layout_x ≤ lx + pos ∧
      comp.layout_x + comp.screen_width > lx + pos
  | .none => false

/-- The neighbor scan (gui_app.cpp lines 370-406): skip the local machine
by name, skip unconnected computers, test the edge geometry. -/
def foundNeighbor (localName : String) (localInfo : ComputerInfo)
    (comps : List ComputerInfo) (edge : ScreenEdge) (pos : Int) : Bool :=
  comps.any fun c => c.name ≠ localName ∧ c.is_connected ∧ isNeighborAt localInfo edge pos c

/-- gui_app.cpp lines 421-424. -/
def oppositeEdge : ScreenEdge → ScreenEdge
  | .right => .left
  | .left => .right
  | .top => .bottom
  | .bottom => .top
  | .none => .none

/-- Result of one mouse-move callback: the new state, the frames handed to
`send`, and the argument of `warp_cursor` if called. -/
structure MoveResult where
  state : PrimaryState
  sent : List Event
  warped : Option (Int × Int)
deriving DecidableEq, Repr

/-- The primary's mouse-move callback (gui_app.cpp lines 335-467).
`hasClient` models `active_client.is_valid()`, `sendOk` whether the
`send` of this step returns `> 0`. -/
def serverMouseMove (hasClient sendOk : Bool) (localName : String)
    (localInfo : ComputerInfo) (comps : List ComputerInfo)
    (s : PrimaryState) (x y dx dy : Int) : MoveResult :=
  if !hasClient then ⟨s, [], none⟩
  else
    let ep := computeEdge localInfo.screen_width localInfo.screen_height x y
    let atEdge := ep.1 ≠ ScreenEdge.none ∧ foundNeighbor localName localInfo comps ep.1 ep.2
    if atEdge ∧ !s.active_on_remote then
      -- switch: active_on_remote := true, capture_input(true), send
      -- SwitchScreen{opposite edge, edge_position}; on send failure revert
      -- both flags and return; otherwise warp_cursor to the screen center.
      let ev := Event.switchScreen (oppositeEdge ep.1) ep.2
      if sendOk then
        ⟨⟨true, true⟩, [ev],
          some (cdiv localInfo.screen_width 2, cdiv localInfo.screen_height 2)⟩
      else ⟨⟨false, false⟩, [ev], none⟩
    else if s.active_on_remote then
      let ev := Event.mouseMove x y dx dy
      if sendOk then ⟨s, [ev], none⟩ else ⟨⟨false, false⟩, [ev], none⟩
    else ⟨s, [], none⟩

/-- The primary's mouse-button callback (gui_app.cpp lines 469-483). -/
def serverMouseButton (hasClient sendOk : Bool) (s : PrimaryState)
    (b : MouseBtn) (pressed : Bool) : PrimaryState × List Event :=
  if !s.active_on_remote then (s, [])
  else if !hasClient then (s, [])
  else if sendOk then (s, [.mouseButton b pressed])
  else (⟨false, false⟩, [.mouseButton b pressed])

/-- The primary's mouse-scroll callback (gui_app.cpp lines 485-499). -/
def serverMouseScroll (hasClient sendOk : Bool) (s : PrimaryState)
    (dx dy : Int) : PrimaryState × List Event :=
  if !s.active_on_remote then (s, [])
  else if !hasClient then (s, [])
  else if sendOk then (s, [.mouseScroll dx dy])
  else (⟨false, false⟩, [.mouseScroll dx dy])

/-- Windows virtual-key codes used by the sources. -/
def VK_TAB : Nat := 9
def VK_SHIFT : Nat := 16
def VK_CONTROL : Nat := 17
def VK_MENU : Nat := 18
def VK_ESCAPE : Nat := 27
def VK_DELETE : Nat := 46
def VK_LWIN : Nat := 91
def VK_RWIN : Nat := 92
def VK_F4 : Nat := 115
def VK_F8 : Nat := 119
def VK_SCROLL : Nat := 145
def VK_LCONTROL : Nat := 162
def VK_RCONTROL : Nat := 163
def VK_LMENU : Nat := 164
def VK_RMENU : Nat := 165

/-- `InputCapture::is_emergency_key` (input_capture.hpp lines 134-164),
branch for branch. -/
def is_emergency_key (vk : Nat) (ctrl_down alt_down : Bool) : Bool :=
  if vk = VK_DELETE ∧ ctrl_down ∧ alt_down then true
  else if vk = VK_CONTROL ∨ vk = VK_LCONTROL ∨ vk = VK_RCONTROL then true
  else if vk = VK_MENU ∨ vk = VK_LMENU ∨ vk = VK_RMENU then true
  else if vk = VK_DELETE then true
  else if vk = VK_SCROLL then true
  else if vk = VK_ESCAPE ∧ ctrl_down ∧ alt_down then true
  else if vk = VK_LWIN ∨ vk = VK_RWIN then true
  else if vk = VK_ESCAPE ∧ ctrl_down then true
  else if vk = VK_TAB ∧ alt_down then true
  else if vk = VK_F4 ∧ alt_down then true
  else false

/-- One keyboard event as seen by the low-level hook: virtual key,
scancode, flags, press/release, and the `GetAsyncKeyState` modifier
snapshot (`shift` is read by the hook but never used). -/
structure KbdInput where
  vk : Nat
  scan : Nat
  flags : Nat
  pressed : Bool
  ctrl : Bool
  alt : Bool
  shift : Bool
deriving DecidableEq, Repr

/-- The primary's keyboard callback (gui_app.cpp lines 501-582).
`screenH` is `GetSystemMetrics(SM_CYSCREEN)` used for the F8 midpoint.
The F8 branch toggles focus and capture together; its `SwitchScreen` send
failure only posts a status message (no revert). -/
def serverKeyCallback (hasClient sendOk : Bool) (screenH : Int)
    (s : PrimaryState) (vk scan flags : Nat) (pressed : Bool) :
    PrimaryState × List Event :=
  if vk = VK_F8 ∧ pressed then
    if hasClient then
      let newState := !s.active_on_remote
      let s' : PrimaryState := ⟨newState, newState⟩
      if newState then (s', [.switchScreen .left (cdiv screenH 2)])
      else (s', [])
    else (s, [])
  else if vk = VK_SCROLL ∧ pressed then
    if s.active_on_remote then (⟨false, false⟩, []) else (s, [])
  else if !s.active_on_remote then (s, [])
  else if hasClient then
    if sendOk then (s, [.key vk scan flags pressed])
    else (⟨false, false⟩, [.key vk scan flags pressed])
  else (s, [])

/-- Result of one keyboard hook invocation: new state, whether the event
propagates to the local OS (`true` = `CallNextHookEx`, `false` = the hook
returns 1 and blocks it), and the frames sent. -/
structure HookResult where
  state : PrimaryState
  propagated : Bool
  sent : List Event
deriving DecidableEq, Repr

/-- `InputCapture::keyboard_hook_proc` (input_capture.hpp lines 259-306)
composed with the app's key callback.  Emergency keys are handled inline
(Scroll Lock and Ctrl+Alt+Escape clear `captured_`) and always pass
through WITHOUT invoking the callback; other keys reach the callback and
are then blocked iff `captured_` is (still) set. -/
def keyboardHookStep (hasClient sendOk : Bool) (screenH : Int)
    (s : PrimaryState) (i : KbdInput) : HookResult :=
  if is_emergency_key i.vk i.ctrl i.alt then
    let s1 := if i.vk = VK_SCROLL ∧ i.pressed ∧ s.captured
              then { s with captured := false } else s
    let s2 := if i.vk = VK_ESCAPE ∧ i.ctrl ∧ i.alt ∧ i.pressed
              then { s1 with captured := false } else s1
    ⟨s2, true, []⟩
  else
    let r := serverKeyCallback hasClient sendOk screenH s i.vk i.scan i.flags i.pressed
    ⟨r.1, !r.1.captured, r.2⟩

/-- The atomic steps of the primary-side controller: the four hook
callbacks, the disconnect reset of the server accept loop (gui_app.cpp
lines 660-665), and the hook thread's safety release
(input_capture.hpp lines 119-126). -/
inductive PrimaryEvent where
  | mouseMove (hasClient sendOk : Bool) (localName : String)
      (localInfo : ComputerInfo) (comps : List ComputerInfo) (x y dx dy : Int)
  | mouseButton (hasClient sendOk : Bool) (b : MouseBtn) (pressed : Bool)
  | mouseScroll (hasClient sendOk : Bool) (dx dy : Int)
  | keyboard (hasClient sendOk : Bool) (screenH : Int) (i : KbdInput)
  | disconnect
  | safetyRelease

def primaryStep (s : PrimaryState) : PrimaryEvent → PrimaryState
  | .mouseMove hc ok n li cs x y dx dy => (serverMouseMove hc ok n li cs s x y dx dy).state
  | .mouseButton hc ok b p => (serverMouseButton hc ok s b p).1
  | .mouseScroll hc ok dx dy => (serverMouseScroll hc ok s dx dy).1
  | .keyboard hc ok h i => (keyboardHookStep hc ok h s i).state
  | .disconnect => ⟨false, false⟩
  | .safetyRelease => { s with captured := false }

/-- States reachable from the initial state (both flags start false). -/
inductive Reachable : PrimaryState → Prop where
  | init : Reachable ⟨false, false⟩
  | step {s : PrimaryState} (ev : PrimaryEvent) :
      Reachable s → Reachable (primaryStep s ev)

/-! ## Secondary-side event application (`gui_app.cpp` client_thread_func)

The client loop keeps `cursor_x, cursor_y, active, entry_edge` as locals
and drives the injector (`InputSimulator`).  One decoded event is one
step. -/

/-- Injector calls the client loop can make. -/
inductive SimCall where
  | moveMouse (x y : Int)
  | button (b : MouseBtn) (pressed : Bool)
  | scroll (dx dy : Int)
  | keyEvent (vk scan flags : Nat) (pressed : Bool)
deriving DecidableEq, Repr

structure ClientState where
  cursor_x : Int
  cursor_y : Int
  active : Bool
  entry_edge : ScreenEdge
deriving DecidableEq, Repr

/-- `should_return` check of the MOUSE_MOVE case (gui_app.cpp lines
726-742): has the clamped cursor reached the entry edge? -/
def shouldReturn (w h : Int) (edge : ScreenEdge) (cx cy : Int) : Bool :=
  match edge with
  | .left => cx ≤ 0
  | .right => cx ≥ w - 1
  | .top => cy ≤ 0
  | .bottom => cy ≥ h - 1
  | .none => false

/-- Cursor placement of the SWITCH_SCREEN case (gui_app.cpp lines
786-808): on the entry edge, perpendicular coordinate taken VERBATIM from
`position` (the `default` arm mirrors the C++ `default:` for an
out-of-range edge byte). -/
def entryCursor (w h : Int) (edge : ScreenEdge) (position : Int) : Int × Int :=
  match edge with
  | .left => (0, position)
  | .right => (w - 1, position)
  | .top => (position, 0)
  | .bottom => (position, h - 1)
  | .none => (0, position)

/-- One event through the client dispatch (gui_app.cpp lines 713-818),
given the local screen `w × h`.  Returns the new loop state and the
injector calls made.  There is no case for `ScreenInfo` or `Keepalive`:
they fall to `default` and change nothing. -/
def clientStep (w h : Int) (s : ClientState) : Event → ClientState × List SimCall
  | .mouseMove _ _ dx dy =>
    if !s.active then (s, [])
    else
      let cx := cppClamp 0 (s.cursor_x + dx) (w - 1)
      let cy := cppClamp 0 (s.cursor_y + dy) (h - 1)
      if shouldReturn w h s.entry_edge cx cy then
        let mx := cdiv w 2
        let my := cdiv h 2
        ({ s with cursor_x := mx, cursor_y := my, active := false },
         [.moveMouse cx cy, .moveMouse mx my])
      else ({ s with cursor_x := cx, cursor_y := cy }, [.moveMouse cx cy])
  | .mouseButton b p =>
    if !s.active then (s, []) else (s, [.button b p])
  | .mouseScroll dx dy =>
    if !s.active then (s, []) else (s, [.scroll dx dy])
  | .key vk scan flags p =>
    if !s.active then (s, []) else (s, [.keyEvent vk scan flags p])
  | .switchScreen edge position =>
    let c := entryCursor w h edge position
    let cx := cppClamp 0 c.1 (w - 1)
    let cy := cppClamp 0 c.2 (h - 1)
    ({ cursor_x := cx, cursor_y := cy, active := true, entry_edge := edge },
     [.moveMouse cx cy])
  | .screenInfo _ _ _ _ => (s, [])
  | .keepalive => (s, [])

/-- The spec's words for `SwitchScreen` placement (§4.6): the perpendicular
coordinate is `scale(position, sender_dim, local_dim) = pos * local / sender`
(integer scaling), with the sender dimensions taken from the last
`ScreenInfo`.  Stated only to compare against what the code computes. -/
def specScale (pos sender localDim : Int) : Int := cdiv (pos * localDim) sender

/-! ## The hook thread's message loop and safety timer
(`input_capture.hpp` hook_thread_func, lines 113-132)

The loop body — and with it the 30 s safety check — runs once per message
that `GetMessage` returns; between messages the thread blocks inside
`GetMessage`.  A step is therefore the delivery of one message at tick
`now`. -/

structure HookLoopState where
  captured : Bool
  last_activity : Nat
deriving DecidableEq, Repr

/-- The safety check executed after dispatching one message received at
tick `now` (`(now - last_activity) > 30000` on unsigned ticks, modelled
with `now ≥ last_activity`). -/
def hookLoopIter (s : HookLoopState) (now : Nat) : HookLoopState :=
  if s.captured ∧ now - s.last_activity > 30000 then { s with captured := false } else s

/-- Run the message loop over the ticks at which `GetMessage` returned a
message.  No message, no iteration: `GetMessage` blocks. -/
def hookLoopRun (s : HookLoopState) (msgs : List Nat) : HookLoopState :=
  msgs.foldl hookLoopIter s

/-! ## Scroll pipeline (`input_capture.hpp` mouse_hook_proc WM_MOUSEWHEEL /
WM_MOUSEHWHEEL and `input_simulator.hpp` mouse_scroll) -/

/-- `WHEEL_DELTA` (Windows constant). -/
def WHEEL_DELTA : Int := 120

/-- The interceptor forwards `delta / WHEEL_DELTA` (C++ truncating
division) as the notch count. -/
def captureWheelNotches (delta : Int) : Int := cdiv delta WHEEL_DELTA

/-- One injected wheel event: `horizontal?` and the `mouseData` magnitude. -/
structure WheelOut where
  horizontal : Bool
  amount : Int
deriving DecidableEq, Repr

/-- `InputSimulator::mouse_scroll` (input_simulator.hpp lines 93-111):
an event per nonzero axis, `mouseData = notches * WHEEL_DELTA`, vertical
first. -/
def injectScroll (dx dy : Int) : List WheelOut :=
  (if dy ≠ 0 then [⟨false, dy * WHEEL_DELTA⟩] else []) ++
  (if dx ≠ 0 then [⟨true, dx * WHEEL_DELTA⟩] else [])

/-- A vertical wheel event with raw `delta` captured on the primary and
replayed on the secondary (the notch count crosses the wire as an i32,
which C6's round-trip shows is preserved). -/
def wheelPipelineV (delta : Int) : List WheelOut :=
  injectScroll 0 (captureWheelNotches delta)

/-! ## Helper lemmas -/

theorem dec16_split (n : Nat) (h : n < 65536) : dec16 (n % 256) (n / 256 % 256) = n := by
  unfold dec16; omega

theorem dec32_split (n : Nat) (h : n < 4294967296) :
    dec32 (n % 256) (n / 256 % 256) (n / 65536 % 256) (n / 16777216 % 256) = n := by
  unfold dec32; omega

theorem asI32_emod (v : Int) (h1 : -2147483648 ≤ v) (h2 : v < 2147483648) :
    asI32 (v % 4294967296).toNat = v := by
  unfold asI32
  have hm : v % 4294967296 = if 0 ≤ v then v else v + 4294967296 := by
    split <;> omega
  split <;> omega

theorem toNat_emod_lt (v : Int) : (v % 4294967296).toNat < 4294967296 := by
  omega

theorem decodeFrame_encoded (a : Bool) (t ts : Nat) (payload : List Nat)
    (h : payload.length < 65536) :
    decodeFrame a (u16Bytes 1 ++ [t] ++ u32Bytes ts ++ u16Bytes payload.length ++ payload)
      = dispatchFrame a t payload := by
  have h1 : ¬ (payload.length > 65535) := by omega
  have h2 : ¬ (payload.length < payload.length) := lt_irrefl _
  simp [u16Bytes, u32Bytes, decodeFrame, parseHeader, dec16_split payload.length h,
    h1, h2, List.take_length]

theorem encodeFrame_def (e : Event) (ts : Nat) :
    encodeFrame e ts = u16Bytes 1 ++ [typeByte e] ++ u32Bytes ts ++
      u16Bytes (payloadBytes e).length ++ payloadBytes e := rfl

theorem payload_short (e : Event) : (payloadBytes e).length < 65536 := by
  cases e <;> simp [payloadBytes, i32Bytes, u32Bytes]

/-! ## Claim C6 — wire round-trip -/

/-- C6, counterexample: the claim `decode(encode(e)) == e` for EVERY event
kind fails at `Keepalive`: the client dispatch has no `KEEPALIVE` case, so
the frame is consumed without yielding the event (same for `ScreenInfo`). -/
theorem c6_keepalive_not_roundtrip :
    decodeFrame true (encodeFrame .keepalive 0) ≠ DecodeResult.event .keepalive := by
  decide

/-- C6, amended: for the five kinds the receiver dispatches — MouseMove,
MouseButton, MouseScroll, Key, SwitchScreen — decoding the encoded frame
yields the original event; `ScreenInfo` and `Keepalive` frames are parsed
but fall to the dispatch `default` and deliver no event.  `wfEvent`
bounds each field by its C++ fixed width. -/
theorem c6_roundtrip_handled_kinds (e : Event) (ts : Nat) (h : wfEvent e) :
    decodeFrame true (encodeFrame e ts) =
      (if delivered e then DecodeResult.event e else .ignored) := by
  rw [encodeFrame_def, decodeFrame_encoded true (typeByte e) ts (payloadBytes e) (payload_short e)]
  cases e with
  | mouseMove x y dx dy =>
    obtain ⟨⟨hx1, hx2⟩, ⟨hy1, hy2⟩, ⟨hdx1, hdx2⟩, ⟨hdy1, hdy2⟩⟩ := h
    simp only [payloadBytes, typeByte, delivered, i32Bytes, u32Bytes,
      List.cons_append, List.nil_append, dispatchFrame, TY_MOUSE_MOVE,
      TY_MOUSE_BUTTON, TY_MOUSE_SCROLL, TY_KEY_PRESS, TY_KEY_RELEASE,
      TY_SWITCH_SCREEN, TY_SCREEN_INFO, TY_KEEPALIVE, TY_CLIPBOARD]
    rw [dec32_split _ (toNat_emod_lt x), dec32_split _ (toNat_emod_lt y),
      dec32_split _ (toNat_emod_lt dx), dec32_split _ (toNat_emod_lt dy),
      asI32_emod x hx1 hx2, asI32_emod y hy1 hy2,
      asI32_emod dx hdx1 hdx2, asI32_emod dy hdy1 hdy2]
    simp
  | mouseButton b p =>
    cases b <;> cases p <;>
      simp [payloadBytes, typeByte, delivered, dispatchFrame, boolByte,
        MouseBtn.toByte, MouseBtn.ofByte, TY_MOUSE_MOVE, TY_MOUSE_BUTTON]
  | mouseScroll dx dy =>
    obtain ⟨⟨hdx1, hdx2⟩, ⟨hdy1, hdy2⟩⟩ := h
    simp only [payloadBytes, typeByte, delivered, i32Bytes, u32Bytes,
      List.cons_append, List.nil_append, dispatchFrame, TY_MOUSE_MOVE,
      TY_MOUSE_BUTTON, TY_MOUSE_SCROLL, TY_KEY_PRESS, TY_KEY_RELEASE,
      TY_SWITCH_SCREEN, TY_SCREEN_INFO, TY_KEEPALIVE, TY_CLIPBOARD]
    rw [dec32_split _ (toNat_emod_lt dx), dec32_split _ (toNat_emod_lt dy),
      asI32_emod dx hdx1 hdx2, asI32_emod dy hdy1 hdy2]
    simp
  | key vk scan flags p =>
    obtain ⟨hvk, hscan, hflags⟩ := h
    cases p <;>
    · simp only [payloadBytes, typeByte, delivered, u32Bytes,
        List.cons_append, List.nil_append, dispatchFrame, TY_MOUSE_MOVE,
        TY_MOUSE_BUTTON, TY_MOUSE_SCROLL, TY_KEY_PRESS, TY_KEY_RELEASE,
        TY_SWITCH_SCREEN, TY_SCREEN_INFO, TY_KEEPALIVE, TY_CLIPBOARD]
      rw [dec32_split vk hvk, dec32_split scan hscan, dec32_split flags hflags]
      simp
  | screenInfo w h x y =>
    simp [payloadBytes, typeByte, delivered, dispatchFrame,
      TY_MOUSE_MOVE, TY_MOUSE_BUTTON, TY_MOUSE_SCROLL, TY_KEY_PRESS,
      TY_KEY_RELEASE, TY_SWITCH_SCREEN, TY_SCREEN_INFO]
  | switchScreen ed pos =>
    obtain ⟨hp1, hp2⟩ := h
    cases ed <;>
    · simp only [payloadBytes, typeByte, delivered, i32Bytes, u32Bytes,
        List.cons_append, List.nil_append, dispatchFrame, ScreenEdge.toByte,
        ScreenEdge.ofByte, TY_MOUSE_MOVE, TY_MOUSE_BUTTON, TY_MOUSE_SCROLL,
        TY_KEY_PRESS, TY_KEY_RELEASE, TY_SWITCH_SCREEN, TY_SCREEN_INFO,
        TY_KEEPALIVE, TY_CLIPBOARD]
      rw [dec32_split _ (toNat_emod_lt pos), asI32_emod pos hp1 hp2]
      simp
  | keepalive =>
    simp [payloadBytes, typeByte, delivered, dispatchFrame,
      TY_MOUSE_MOVE, TY_MOUSE_BUTTON, TY_MOUSE_SCROLL, TY_KEY_PRESS,
      TY_KEY_RELEASE, TY_SWITCH_SCREEN, TY_KEEPALIVE]

/-- C6, witness: the round-trip theorem applied to a concrete move event. -/
theorem c6_roundtrip_witness :
    wfEvent (.mouseMove 1919 500 1 0) ∧
      decodeFrame true (encodeFrame (.mouseMove 1919 500 1 0) 7) =
        DecodeResult.event (.mouseMove 1919 500 1 0) := by
  refine ⟨by decide, ?_⟩
  have h := c6_roundtrip_handled_kinds (.mouseMove 1919 500 1 0) 7 (by decide)
  simpa using h

/-! ## Claim C7 — frame validation -/

theorem dispatch_short_mouseMove (a : Bool) (p : List Nat) (h : p.length < 16) :
    dispatchFrame a 1 p = .ignored := by
  unfold dispatchFrame
  norm_num [TY_MOUSE_MOVE]
  cases a
  · simp
  · intro _
    split <;> first | rfl | (exfalso; simp_all; omega)

theorem dispatch_short_mouseButton (a : Bool) (p : List Nat) (h : p.length < 2) :
    dispatchFrame a 2 p = .ignored := by
  unfold dispatchFrame
  norm_num [TY_MOUSE_MOVE, TY_MOUSE_BUTTON]
  cases a
  · simp
  · intro _
    split <;> first | rfl | (exfalso; simp_all; omega)

theorem dispatch_short_mouseScroll (a : Bool) (p : List Nat) (h : p.length < 8) :
    dispatchFrame a 3 p = .ignored := by
  unfold dispatchFrame
  norm_num [TY_MOUSE_MOVE, TY_MOUSE_BUTTON, TY_MOUSE_SCROLL]
  cases a
  · simp
  · intro _
    split <;> first | rfl | (exfalso; simp_all; omega)

theorem dispatch_short_key (a : Bool) (ty : Nat) (p : List Nat)
    (hty : ty = 4 ∨ ty = 5) (h : p.length < 12) :
    dispatchFrame a ty p = .ignored := by
  unfold dispatchFrame
  rcases hty with rfl | rfl <;>
  · norm_num [TY_MOUSE_MOVE, TY_MOUSE_BUTTON, TY_MOUSE_SCROLL, TY_KEY_PRESS, TY_KEY_RELEASE]
    cases a
    · simp
    · intro _
      split <;> first | rfl | (exfalso; simp_all; omega)

theorem dispatch_short_switch (a : Bool) (p : List Nat) (h : p.length < 5) :
    dispatchFrame a 9 p = .ignored := by
  unfold dispatchFrame
  norm_num [TY_MOUSE_MOVE, TY_MOUSE_BUTTON, TY_MOUSE_SCROLL, TY_KEY_PRESS,
    TY_KEY_RELEASE, TY_SWITCH_SCREEN]
  split <;> first | rfl | (exfalso; simp_all; omega)

theorem dispatch_unknown (a : Bool) (ty : Nat) (p : List Nat)
    (h1 : ty ≠ 1) (h2 : ty ≠ 2) (h3 : ty ≠ 3) (h4 : ty ≠ 4) (h5 : ty ≠ 5) (h9 : ty ≠ 9) :
    dispatchFrame a ty p = .ignored := by
  unfold dispatchFrame
  split_ifs <;> simp_all [TY_MOUSE_MOVE, TY_MOUSE_BUTTON, TY_MOUSE_SCROLL,
    TY_KEY_PRESS, TY_KEY_RELEASE, TY_SWITCH_SCREEN]

theorem decode_truncated (a : Bool) (v0 v1 t s0 s1 s2 s3 p0 p1 : Nat) (rest : List Nat)
    (h : rest.length < dec16 p0 p1) :
    decodeFrame a (v0 :: v1 :: t :: s0 :: s1 :: s2 :: s3 :: p0 :: p1 :: rest) = .rejected := by
  simp only [decodeFrame, parseHeader]
  split_ifs <;> simp_all

theorem decode_version_blind (a : Bool) (v0 v1 w0 w1 : Nat) (rest : List Nat) :
    decodeFrame a (v0 :: v1 :: rest) = decodeFrame a (w0 :: w1 :: rest) := by
  rcases rest with _ | ⟨t, _ | ⟨s0, _ | ⟨s1, _ | ⟨s2, _ | ⟨s3, _ | ⟨p0, _ | ⟨p1, r⟩⟩⟩⟩⟩⟩⟩ <;> rfl

/-- C7, counterexample: a frame whose header version is 2 (bytes `2, 0`)
is NOT rejected — the client never examines `version`, so a 16-byte
`MOUSE_MOVE` payload is decoded and delivered. -/
theorem c7_version_two_delivered :
    decodeFrame true ([2, 0, 1, 0, 0, 0, 0, 16, 0] ++ List.replicate 16 0)
      = DecodeResult.event (.mouseMove 0 0 0 0) := by
  decide

/-- C7, amended: the receive loop (a) abandons the connection when the
payload is shorter than the declared `payload_size`; (b) can never see
`payload_size > 65535` since the field is a `u16` assembled from two
bytes; (c)-(g) skips, without delivering an event, a known-type frame
whose payload is shorter than the type's struct (longer payloads are
accepted, trailing bytes unread); (h) ignores unknown (and `CLIPBOARD`,
`KEEPALIVE`, `SCREEN_INFO`) type values rather than treating them as
errors; and (i) never examines the header version. -/
theorem c7_frame_validation :
    (∀ (a : Bool) (v0 v1 t s0 s1 s2 s3 p0 p1 : Nat) (rest : List Nat),
        rest.length < dec16 p0 p1 →
        decodeFrame a (v0 :: v1 :: t :: s0 :: s1 :: s2 :: s3 :: p0 :: p1 :: rest) = .rejected) ∧
    (∀ p0 p1 : Nat, p0 < 256 → p1 < 256 → dec16 p0 p1 ≤ 65535) ∧
    (∀ (a : Bool) (p : List Nat), p.length < 16 → dispatchFrame a 1 p = .ignored) ∧
    (∀ (a : Bool) (p : List Nat), p.length < 2 → dispatchFrame a 2 p = .ignored) ∧
    (∀ (a : Bool) (p : List Nat), p.length < 8 → dispatchFrame a 3 p = .ignored) ∧
    (∀ (a : Bool) (ty : Nat) (p : List Nat),
        ty = 4 ∨ ty = 5 → p.length < 12 → dispatchFrame a ty p = .ignored) ∧
    (∀ (a : Bool) (p : List Nat), p.length < 5 → dispatchFrame a 9 p = .ignored) ∧
    (∀ (a : Bool) (ty : Nat) (p : List Nat),
        ty ≠ 1 → ty ≠ 2 → ty ≠ 3 → ty ≠ 4 → ty ≠ 5 → ty ≠ 9 →
        dispatchFrame a ty p = .ignored) ∧
    (∀ (a : Bool) (v0 v1 w0 w1 : Nat) (rest : List Nat),
        decodeFrame a (v0 :: v1 :: rest) = decodeFrame a (w0 :: w1 :: rest)) := by
  refine ⟨decode_truncated, ?_, dispatch_short_mouseMove, dispatch_short_mouseButton,
    dispatch_short_mouseScroll, dispatch_short_key, dispatch_short_switch,
    dispatch_unknown, decode_version_blind⟩
  intro p0 p1 h0 h1
  unfold dec16
  omega

/-- C7, witness: the validation theorem applied to concrete frames — a
truncated frame, an undersized `MOUSE_MOVE` payload, an unknown type 42,
and two frames differing only in version. -/
theorem c7_frame_validation_witness :
    decodeFrame true [1, 0, 1, 0, 0, 0, 0, 5, 0] = .rejected ∧
    dispatchFrame true 1 [3, 0, 0] = .ignored ∧
    dispatchFrame true 42 [1, 2, 3] = .ignored ∧
    decodeFrame true [2, 0, 7, 0, 0, 0, 0, 0, 0] = decodeFrame true [1, 0, 7, 0, 0, 0, 0, 0, 0] :=
  ⟨c7_frame_validation.1 true 1 0 1 0 0 0 0 5 0 [] (by decide),
   c7_frame_validation.2.2.1 true [3, 0, 0] (by decide),
   c7_frame_validation.2.2.2.2.2.2.2.1 true 42 [1, 2, 3]
     (by decide) (by decide) (by decide) (by decide) (by decide) (by decide),
   c7_frame_validation.2.2.2.2.2.2.2.2 true 2 0 1 0 [7, 0, 0, 0, 0, 0, 0]⟩

/-! ## Claim C10 — scroll-wheel quantization -/

/-- C10: the interceptor forwards `delta / WHEEL_DELTA` with C++
truncating division and the injector multiplies the notch count by
`WHEEL_DELTA` again, so the injected magnitude is `(delta / 120) * 120`
and any `|delta| < 120` round-trips to zero, producing no injected
scroll event at all. -/
theorem c10_wheel_quantized :
    (∀ delta : Int, wheelPipelineV delta =
        if cdiv delta WHEEL_DELTA = 0 then []
        else [⟨false, cdiv delta WHEEL_DELTA * WHEEL_DELTA⟩]) ∧
    (∀ delta : Int, delta.natAbs < 120 → wheelPipelineV delta = []) := by
  constructor
  · intro delta
    unfold wheelPipelineV injectScroll captureWheelNotches
    split_ifs <;> simp_all
  · intro delta h
    have h0 : cdiv delta 120 = 0 := by
      unfold cdiv
      split <;> omega
    simp [wheelPipelineV, injectScroll, captureWheelNotches, WHEEL_DELTA, h0]

/-- C10, witness: a precision-touchpad tick of −119 injects nothing; a
raw delta of −250 injects one wheel event of magnitude −240. -/
theorem c10_wheel_quantized_witness :
    wheelPipelineV (-119) = [] ∧ wheelPipelineV (-250) = [⟨false, -240⟩] := by
  refine ⟨c10_wheel_quantized.2 (-119) (by decide), ?_⟩
  have h := c10_wheel_quantized.1 (-250)
  simpa [cdiv, WHEEL_DELTA] using h

/-! ## Claim C8 — the 30 s safety auto-release -/

/-- C8: the 30 000 ms safety check (input_capture.hpp lines 119-126) runs
only inside the message loop, AFTER `GetMessage` has returned a message;
with no input and no posted messages the hook thread stays blocked in
`GetMessage` and `captured_` is never cleared — the left conjunct: over
an empty message trace the state is unchanged forever.  The right
conjunct shows the check itself does release once a message arrives
after the window, which is the behavior the claim (and the code's own
comment) intends for the no-message case as well. -/
theorem c8_safety_release_needs_message :
    hookLoopRun ⟨true, 0⟩ [] = ⟨true, 0⟩ ∧
      hookLoopIter ⟨true, 0⟩ 30001 = ⟨false, 0⟩ := by
  exact ⟨rfl, by decide⟩

/-! ## Claim C3 — Scroll Lock panic -/

/-- C3: a pressed `VK_SCROLL` (145) from the state `focus = REMOTE,
suppress = true`: the hook takes the emergency branch, clears `captured_`
and passes the key through WITHOUT invoking the app's key callback, so
`active_on_remote` (the focus) remains REMOTE — the VK_SCROLL branch of
the app callback (gui_app.cpp lines 552-560) is unreachable.  The claim
(and that dead branch) want focus forced to LOCAL in the same
invocation. -/
theorem c3_scroll_lock_leaves_focus_remote :
    keyboardHookStep true true 1080 ⟨true, true⟩ ⟨145, 0, 0, true, false, false, false⟩
      = ⟨⟨true, false⟩, true, []⟩ := by
  decide

/-! ## Claim C2 — secondary SwitchScreen handling -/

/-- C2, counterexample: a secondary with a 1920×1080 screen receives
`ScreenInfo{3840, 2160}` and then `SwitchScreen{LEFT, 1000}`.  The claim
predicts the perpendicular coordinate `scale(1000, 2160, 1080) = 500`;
the code stores no sender dimensions and uses the raw position 1000. -/
theorem c2_position_not_scaled :
    ((clientStep 1920 1080
        ((clientStep 1920 1080 ⟨0, 0, false, .left⟩ (.screenInfo 3840 2160 0 0)).1)
        (.switchScreen .left 1000)).1.cursor_y = 1000) ∧
      specScale 1000 2160 1080 = 500 := by
  decide

/-- C2, amended: receiving `SwitchScreen{edge, position}` transitions to
ACTIVE, records `entry_edge := edge`, and places the cursor on the entry
edge's boundary pixel with the perpendicular coordinate equal to the RAW
`position` clamped to the local screen (no scaling is performed), then
calls `move_absolute`; received `ScreenInfo` frames are ignored — no
sender dimensions are stored. -/
theorem c2_switch_screen_placement (w h : Int) (hw : 0 < w) (hh : 0 < h)
    (s : ClientState) (pos : Int) :
    (clientStep w h s (.switchScreen .left pos) =
      (⟨0, cppClamp 0 pos (h - 1), true, .left⟩, [.moveMouse 0 (cppClamp 0 pos (h - 1))])) ∧
    (clientStep w h s (.switchScreen .right pos) =
      (⟨w - 1, cppClamp 0 pos (h - 1), true, .right⟩,
        [.moveMouse (w - 1) (cppClamp 0 pos (h - 1))])) ∧
    (clientStep w h s (.switchScreen .top pos) =
      (⟨cppClamp 0 pos (w - 1), 0, true, .top⟩, [.moveMouse (cppClamp 0 pos (w - 1)) 0])) ∧
    (clientStep w h s (.switchScreen .bottom pos) =
      (⟨cppClamp 0 pos (w - 1), h - 1, true, .bottom⟩,
        [.moveMouse (cppClamp 0 pos (w - 1)) (h - 1)])) ∧
    (∀ sw sh sx sy, clientStep w h s (.screenInfo sw sh sx sy) = (s, [])) := by
  have e1 : cppClamp 0 0 (w - 1) = 0 := by unfold cppClamp; omega
  have e2 : cppClamp 0 (w - 1) (w - 1) = w - 1 := by unfold cppClamp; omega
  have e3 : cppClamp 0 0 (h - 1) = 0 := by unfold cppClamp; omega
  have e4 : cppClamp 0 (h - 1) (h - 1) = h - 1 := by unfold cppClamp; omega
  refine ⟨?_, ?_, ?_, ?_, fun sw sh sx sy => rfl⟩ <;>
    simp [clientStep, entryCursor, e1, e2, e3, e4]

/-- C2, witness: spec scenario 3 — `SwitchScreen{LEFT, 500}` on a
1920×1080 secondary places the cursor at `(0, 500)` and activates. -/
theorem c2_switch_screen_witness :
    clientStep 1920 1080 ⟨0, 0, false, .left⟩ (.switchScreen .left 500) =
      (⟨0, 500, true, .left⟩, [.moveMouse 0 500]) := by
  have h := (c2_switch_screen_placement 1920 1080 (by norm_num) (by norm_num)
    ⟨0, 0, false, .left⟩ 500).1
  rw [h]
  decide

/-! ## Claim C1 — edge hit switches iff a connected flush neighbor exists -/

/-- C1: on the primary in LOCAL focus with an open session, a mouse move
whose cursor the edge computation places on edge `e` flips focus to
REMOTE iff the topology holds a connected peer (name different from the
local machine's) flush on `e` whose perpendicular extent contains the
cursor's perpendicular coordinate (`foundNeighbor`, which is exactly the
flushness test quoted by the claim, e.g. for RIGHT:
`peer.layout_x = local.layout_x + local.w` and
`peer.layout_y ≤ local.layout_y + y < peer.layout_y + peer.h`); with no
such peer the state is unchanged, nothing is sent, and no warp happens;
with one, focus and suppress are set, `SwitchScreen{opposite e, pos}` is
sent and the cursor is warped to the screen center. -/
theorem c1_edge_switch_iff_neighbor (localName : String) (localInfo : ComputerInfo)
    (comps : List ComputerInfo) (s : PrimaryState) (x y dx dy : Int)
    (hs : s.active_on_remote = false)
    (e : ScreenEdge) (pos : Int)
    (hedge : computeEdge localInfo.screen_width localInfo.screen_height x y = (e, pos))
    (hne : e ≠ .none) :
    ((serverMouseMove true true localName localInfo comps s x y dx dy).state.active_on_remote
        = true ↔ foundNeighbor localName localInfo comps e pos = true) ∧
    (foundNeighbor localName localInfo comps e pos = false →
      serverMouseMove true true localName localInfo comps s x y dx dy = ⟨s, [], Option.none⟩) ∧
    (foundNeighbor localName localInfo comps e pos = true →
      serverMouseMove true true localName localInfo comps s x y dx dy =
        ⟨⟨true, true⟩, [Event.switchScreen (oppositeEdge e) pos],
          some (cdiv localInfo.screen_width 2, cdiv localInfo.screen_height 2)⟩) := by
  unfold serverMouseMove
  rw [hedge]
  cases hf : foundNeighbor localName localInfo comps e pos <;>
    simp [hs, hne, hf]

/-- C1, witness: spec scenario 1 (cursor reaches (1919,500) on a
1920×1080 primary, connected peer B at (1920,0)) — the switch fires; and
scenario 2 (no peer) — nothing happens. -/
theorem c1_edge_switch_witness :
    (serverMouseMove true true "A"
        ⟨"A", "", 24800, 1920, 1080, true, false, 0, 0, 0⟩
        [⟨"A", "", 24800, 1920, 1080, true, false, 0, 0, 0⟩,
         ⟨"B", "10.0.0.2", 24800, 1920, 1080, false, true, 0, 1920, 0⟩]
        ⟨false, false⟩ 1919 500 1 0 =
      ⟨⟨true, true⟩, [Event.switchScreen .left 500], some (960, 540)⟩) ∧
    (serverMouseMove true true "A"
        ⟨"A", "", 24800, 1920, 1080, true, false, 0, 0, 0⟩
        [⟨"A", "", 24800, 1920, 1080, true, false, 0, 0, 0⟩]
        ⟨false, false⟩ 1919 500 1 0 =
      ⟨⟨false, false⟩, [], Option.none⟩) := by
  constructor
  · have h := (c1_edge_switch_iff_neighbor "A"
      ⟨"A", "", 24800, 1920, 1080, true, false, 0, 0, 0⟩
      [⟨"A", "", 24800, 1920, 1080, true, false, 0, 0, 0⟩,
       ⟨"B", "10.0.0.2", 24800, 1920, 1080, false, true, 0, 1920, 0⟩]
      ⟨false, false⟩ 1919 500 1 0 rfl .right 500 (by decide) (by decide)).2.2 (by decide)
    rw [h]
    decide
  · have h := (c1_edge_switch_iff_neighbor "A"
      ⟨"A", "", 24800, 1920, 1080, true, false, 0, 0, 0⟩
      [⟨"A", "", 24800, 1920, 1080, true, false, 0, 0, 0⟩]
      ⟨false, false⟩ 1919 500 1 0 rfl .right 500 (by decide) (by decide)).2.1 (by decide)
    exact h

/-! ## Claim C4 — emergency keys always propagate -/

/-- The claim's emergency-key list minus the user toggle key: CTRL, ALT,
DELETE (hence also CTRL+ALT+DELETE), SCROLL_LOCK, WIN, CTRL+SHIFT+ESC,
ALT+TAB, ALT+F4 and CTRL+ALT+ESC. -/
def claimedEmergency (i : KbdInput) : Prop :=
  i.vk = VK_CONTROL ∨ i.vk = VK_LCONTROL ∨ i.vk = VK_RCONTROL ∨
  i.vk = VK_MENU ∨ i.vk = VK_LMENU ∨ i.vk = VK_RMENU ∨
  i.vk = VK_DELETE ∨ i.vk = VK_SCROLL ∨ i.vk = VK_LWIN ∨ i.vk = VK_RWIN ∨
  (i.vk = VK_ESCAPE ∧ i.ctrl = true ∧ i.shift = true) ∨
  (i.vk = VK_TAB ∧ i.alt = true) ∨
  (i.vk = VK_F4 ∧ i.alt = true) ∨
  (i.vk = VK_ESCAPE ∧ i.ctrl = true ∧ i.alt = true)

instance : DecidablePred claimedEmergency := fun i => by
  unfold claimedEmergency; infer_instance

theorem claimed_subset_code (i : KbdInput) (h : claimedEmergency i) :
    is_emergency_key i.vk i.ctrl i.alt = true := by
  unfold claimedEmergency at h
  unfold is_emergency_key VK_TAB VK_CONTROL VK_MENU VK_ESCAPE VK_DELETE VK_LWIN VK_RWIN
    VK_F4 VK_SCROLL VK_LCONTROL VK_RCONTROL VK_LMENU VK_RMENU at *
  rcases h with h|h|h|h|h|h|h|h|h|h|h|h|h|h <;> simp_all

/-- C4, counterexample: the configured user toggle key F8 (vk 119) is NOT
in `is_emergency_key`; releasing F8 while the focus is REMOTE and
suppress is on leaves `captured_` set, so the hook returns 1 and the key
never reaches the local OS — refuting "every event in the set including
the user toggle key propagates regardless of suppress". -/
theorem c4_f8_blocked_while_suppressed :
    (keyboardHookStep true true 1080 ⟨true, true⟩
      ⟨VK_F8, 0, 0, false, false, false, false⟩).propagated = false := by
  decide

/-- C4, amended: with the user toggle key removed from the list, every
keyboard event in the emergency set — CTRL, ALT, DELETE, SCROLL_LOCK,
WIN, CTRL+SHIFT+ESC, ALT+TAB, ALT+F4, CTRL+ALT+ESC (and CTRL+ALT+DELETE)
— passes the hook through to the OS in every state, suppressed or not,
and a pressed CTRL+ALT+ESC additionally forces suppress off. -/
theorem c4_emergency_always_propagates (hc ok : Bool) (screenH : Int)
    (s : PrimaryState) (i : KbdInput) (h : claimedEmergency i) :
    (keyboardHookStep hc ok screenH s i).propagated = true ∧
    (i.vk = VK_ESCAPE → i.ctrl = true → i.alt = true → i.pressed = true →
      (keyboardHookStep hc ok screenH s i).state.captured = false) := by
  have hem := claimed_subset_code i h
  constructor
  · simp [keyboardHookStep, hem]
  · intro h1 h2 h3 h4
    simp [keyboardHookStep, hem, h1, h2, h3, h4, VK_ESCAPE, VK_SCROLL]
    have hck : is_emergency_key 27 true true = true := by decide
    simp [hck]

/-- C4, witness: ALT+TAB pressed while suppressed propagates;
CTRL+ALT+ESC pressed while suppressed propagates and clears suppress. -/
theorem c4_emergency_witness :
    (keyboardHookStep true true 1080 ⟨true, true⟩
        ⟨VK_TAB, 0, 0, true, false, true, false⟩).propagated = true ∧
    (keyboardHookStep true true 1080 ⟨true, true⟩
        ⟨VK_ESCAPE, 0, 0, true, true, true, false⟩).state.captured = false := by
  constructor
  · exact (c4_emergency_always_propagates true true 1080 ⟨true, true⟩
      ⟨VK_TAB, 0, 0, true, false, true, false⟩ (by decide)).1
  · exact (c4_emergency_always_propagates true true 1080 ⟨true, true⟩
      ⟨VK_ESCAPE, 0, 0, true, true, true, false⟩ (by decide)).2 rfl rfl rfl rfl

/-! ## Claim C5 — suppress implies REMOTE -/

theorem serverMouseMove_state_cases (hc ok : Bool) (n : String) (li : ComputerInfo)
    (cs : List ComputerInfo) (s : PrimaryState) (x y dx dy : Int) :
    (serverMouseMove hc ok n li cs s x y dx dy).state = s ∨
    (serverMouseMove hc ok n li cs s x y dx dy).state = ⟨true, true⟩ ∨
    (serverMouseMove hc ok n li cs s x y dx dy).state = ⟨false, false⟩ := by
  unfold serverMouseMove
  dsimp only
  split_ifs <;> simp_all

theorem serverMouseButton_state_cases (hc ok : Bool) (s : PrimaryState)
    (b : MouseBtn) (p : Bool) :
    (serverMouseButton hc ok s b p).1 = s ∨ (serverMouseButton hc ok s b p).1 = ⟨false, false⟩ := by
  unfold serverMouseButton
  split_ifs <;> simp

theorem serverMouseScroll_state_cases (hc ok : Bool) (s : PrimaryState) (dx dy : Int) :
    (serverMouseScroll hc ok s dx dy).1 = s ∨
    (serverMouseScroll hc ok s dx dy).1 = ⟨false, false⟩ := by
  unfold serverMouseScroll
  split_ifs <;> simp

theorem serverKeyCallback_state_cases (hc ok : Bool) (sh : Int) (s : PrimaryState)
    (vk scan flags : Nat) (p : Bool) :
    (serverKeyCallback hc ok sh s vk scan flags p).1 = s ∨
    (serverKeyCallback hc ok sh s vk scan flags p).1 = ⟨true, true⟩ ∨
    (serverKeyCallback hc ok sh s vk scan flags p).1 = ⟨false, false⟩ := by
  unfold serverKeyCallback
  dsimp only
  split_ifs <;> simp_all

theorem keyboardHookStep_state_cases (hc ok : Bool) (sh : Int) (s : PrimaryState)
    (i : KbdInput) :
    (keyboardHookStep hc ok sh s i).state = s ∨
    (keyboardHookStep hc ok sh s i).state = ⟨s.active_on_remote, false⟩ ∨
    (keyboardHookStep hc ok sh s i).state = ⟨true, true⟩ ∨
    (keyboardHookStep hc ok sh s i).state = ⟨false, false⟩ := by
  unfold keyboardHookStep
  dsimp only
  split_ifs <;> try simp_all
  rcases serverKeyCallback_state_cases hc ok sh s i.vk i.scan i.flags i.pressed
    with h | h | h <;> simp [h]

/-- C5: first conjunct — in every reachable state of the primary
controller (all interleavings of the four callbacks, the disconnect
reset, and the safety release, under any client/send outcome),
`suppress = true` implies `focus = REMOTE`; every step that raises
suppress sets REMOTE in the same step.  Second conjunct — a failed send
of a forwarded move while in REMOTE leaves the atomic step having
dropped both flags: focus LOCAL, suppress off. -/
theorem c5_suppress_implies_remote :
    (∀ s : PrimaryState, Reachable s → s.captured = true → s.active_on_remote = true) ∧
    (∀ (n : String) (li : ComputerInfo) (cs : List ComputerInfo)
        (s : PrimaryState) (x y dx dy : Int), s.active_on_remote = true →
        (serverMouseMove true false n li cs s x y dx dy).state = ⟨false, false⟩) := by
  constructor
  · intro s hreach
    induction hreach with
    | init => simp
    | step ev hs ih =>
      rename_i s'
      cases ev with
      | mouseMove hc ok n li cs x y dx dy =>
        rcases serverMouseMove_state_cases hc ok n li cs s' x y dx dy with h | h | h <;>
          simp_all [primaryStep]
      | mouseButton hc ok b p =>
        rcases serverMouseButton_state_cases hc ok s' b p with h | h <;>
          simp_all [primaryStep]
      | mouseScroll hc ok dx dy =>
        rcases serverMouseScroll_state_cases hc ok s' dx dy with h | h <;>
          simp_all [primaryStep]
      | keyboard hc ok sh i =>
        rcases keyboardHookStep_state_cases hc ok sh s' i with h | h | h | h <;>
          simp_all [primaryStep]
      | disconnect => simp [primaryStep]
      | safetyRelease => simp [primaryStep]
  · intro n li cs s x y dx dy hs
    unfold serverMouseMove
    dsimp only
    split_ifs with h1 h2 <;> simp_all

/-- C5, witness: the invariant applied to the reachable state
`⟨REMOTE, suppressed⟩` (reached from the initial state by one F8 press
with a client attached), and the failed-send revert applied there. -/
theorem c5_suppress_witness :
    (⟨true, true⟩ : PrimaryState).active_on_remote = true ∧
    (serverMouseMove true false "A" ⟨"A", "", 24800, 1920, 1080, true, false, 0, 0, 0⟩ []
      ⟨true, true⟩ 5 5 1 1).state = ⟨false, false⟩ := by
  constructor
  · refine c5_suppress_implies_remote.1 ⟨true, true⟩ ?_ rfl
    have h0 : Reachable ⟨false, false⟩ := .init
    have h1 := Reachable.step
      (s := ⟨false, false⟩)
      (PrimaryEvent.keyboard true true 1080 ⟨VK_F8, 0, 0, true, false, false, false⟩) h0
    have he : primaryStep ⟨false, false⟩
        (PrimaryEvent.keyboard true true 1080 ⟨VK_F8, 0, 0, true, false, false, false⟩) =
        ⟨true, true⟩ := by decide
    rwa [he] at h1
  · exact c5_suppress_implies_remote.2 "A"
      ⟨"A", "", 24800, 1920, 1080, true, false, 0, 0, 0⟩ [] ⟨true, true⟩ 5 5 1 1 rfl

/-! ## Claim C9 — discovery receive contract -/

theorem updateComputer_refreshes (p : DiscoveryPacket) (ip : String) (now : Nat)
    (comps : List ComputerInfo) (h : comps.any (fun c => c.name = p.name) = true) :
    ∃ c, c ∈ updateComputer p ip now comps ∧ c.name = p.name ∧ c.last_seen = now ∧
      c.ip = ip ∧ c.port = p.port := by
  induction comps with
  | nil => simp at h
  | cons c cs ih =>
    by_cases hc : c.name = p.name
    · use ({ c with
               ip := ip
               port := p.port
               screen_width := p.screen_width
               screen_height := p.screen_height
               is_server := p.is_server = 1
               last_seen := now } : ComputerInfo)
      refine ⟨?_, by simp [hc], rfl, rfl, rfl⟩
      simp [updateComputer, hc]
    · have h' : cs.any (fun c => c.name = p.name) = true := by
        simp [List.any_cons, hc] at h
        simpa using h
      obtain ⟨c', hm, hp⟩ := ih h'
      exact ⟨c', by simp [updateComputer, hc, hm], hp⟩

theorem reap_keeps_local (ln : String) (now : Nat) (comps : List ComputerInfo)
    (c : ComputerInfo) (hm : c ∈ comps) (hn : c.name = ln) :
    c ∈ reapStale ln now comps := by
  refine List.mem_filter.2 ⟨hm, ?_⟩
  simp [hn]

theorem reap_removes_stale (ln : String) (now : Nat) (comps : List ComputerInfo)
    (c : ComputerInfo) (hm : c ∈ reapStale ln now comps)
    (h1 : c.name ≠ "") (h2 : c.name ≠ ln) : now - c.last_seen ≤ 10000 := by
  have hp := (List.mem_filter.1 hm).2
  simp [h1, h2] at hp
  omega

theorem reap_keeps_fresh (ln : String) (now : Nat) (comps : List ComputerInfo)
    (c : ComputerInfo) (hm : c ∈ comps) (hf : now - c.last_seen ≤ 10000) :
    c ∈ reapStale ln now comps := by
  refine List.mem_filter.2 ⟨hm, ?_⟩
  simp
  right
  right
  omega

/-- C9, counterexample: inserting peer B into a topology whose only (and
rightmost) entry is the local 1920×1080 machine at (0,0) places B at
`layout_x = 1970` — 50 virtual pixels to the RIGHT of the rightmost
extent 1920, not immediately (flush) right of it as the claim reads. -/
theorem c9_insert_gap_counterexample :
    processPacket "A" 5000 "10.0.0.2"
        [⟨"A", "", 24800, 1920, 1080, true, false, 0, 0, 0⟩]
        ⟨"MSHR", 1, 24800, 1920, 1080, 0, "B"⟩ =
      [⟨"A", "", 24800, 1920, 1080, true, false, 0, 0, 0⟩,
       ⟨"B", "10.0.0.2", 24800, 1920, 1080, false, false, 5000, 1970, 0⟩] ∧
    maxRight [⟨"A", "", 24800, 1920, 1080, true, false, 0, 0, 0⟩] = 1920 ∧
    (1970 : Int) ≠ 1920 := by
  decide

/-- C9, amended: on a received discovery packet, non-`MSHR` packets are
dropped; packets bearing the local name are dropped; a packet with a
known name refreshes that peer's ip, port and `last_seen`; a new name is
appended positioned `maxRight + 50` — 50 virtual pixels right of the
rightmost existing peer's right edge — at `layout_y = 0`; the reap keeps
the local peer (and every peer seen within 10 000 ms) and removes every
named remote peer not heard from for more than 10 000 ms. -/
theorem c9_discovery_contract :
    (∀ (ln : String) (now : Nat) (ip : String) (comps : List ComputerInfo)
        (p : DiscoveryPacket), p.magic ≠ "MSHR" → processPacket ln now ip comps p = comps) ∧
    (∀ (ln : String) (now : Nat) (ip : String) (comps : List ComputerInfo)
        (p : DiscoveryPacket), p.name = ln → processPacket ln now ip comps p = comps) ∧
    (∀ (ln : String) (now : Nat) (ip : String) (comps : List ComputerInfo)
        (p : DiscoveryPacket), p.magic = "MSHR" → p.name ≠ ln →
        comps.any (fun c => c.name = p.name) = false →
        processPacket ln now ip comps p = comps ++
          [{ name := p.name, ip := ip, port := p.port, screen_width := p.screen_width,
             screen_height := p.screen_height, is_server := p.is_server = 1,
             is_connected := false, last_seen := now,
             layout_x := maxRight comps + 50, layout_y := 0 }]) ∧
    (∀ (ln : String) (now : Nat) (ip : String) (comps : List ComputerInfo)
        (p : DiscoveryPacket), p.magic = "MSHR" → p.name ≠ ln →
        comps.any (fun c => c.name = p.name) = true →
        ∃ c, c ∈ processPacket ln now ip comps p ∧ c.name = p.name ∧
          c.last_seen = now ∧ c.ip = ip ∧ c.port = p.port) ∧
    (∀ (ln : String) (now : Nat) (comps : List ComputerInfo) (c : ComputerInfo),
        c ∈ comps → c.name = ln → c ∈ reapStale ln now comps) ∧
    (∀ (ln : String) (now : Nat) (comps : List ComputerInfo) (c : ComputerInfo),
        c ∈ reapStale ln now comps → c.name ≠ "" → c.name ≠ ln →
        now - c.last_seen ≤ 10000) ∧
    (∀ (ln : String) (now : Nat) (comps : List ComputerInfo) (c : ComputerInfo),
        c ∈ comps → now - c.last_seen ≤ 10000 → c ∈ reapStale ln now comps) := by
  refine ⟨?_, ?_, ?_, ?_, reap_keeps_local, reap_removes_stale, reap_keeps_fresh⟩
  · intro ln now ip comps p h
    simp [processPacket, h]
  · intro ln now ip comps p h
    simp [processPacket, h]
  · intro ln now ip comps p h1 h2 h3
    simp [processPacket, h1, h2, h3]
  · intro ln now ip comps p h1 h2 h3
    have := updateComputer_refreshes p ip now comps h3
    simpa [processPacket, h1, h2, h3] using this

/-- C9, witness: the contract applied to concrete packets — a packet with
the wrong magic is dropped; a refresh packet for known peer B updates its
`last_seen`; spec scenario 6 — B with `last_seen = 0` is gone at
`now = 10001` while the local peer A remains. -/
theorem c9_discovery_witness :
    (processPacket "A" 5000 "10.0.0.9"
        [⟨"A", "", 24800, 1920, 1080, true, false, 0, 0, 0⟩]
        ⟨"XSHR", 1, 24800, 640, 480, 0, "B"⟩ =
      [⟨"A", "", 24800, 1920, 1080, true, false, 0, 0, 0⟩]) ∧
    (∃ c, c ∈ processPacket "A" 7000 "10.0.0.2"
        [⟨"A", "", 24800, 1920, 1080, true, false, 0, 0, 0⟩,
         ⟨"B", "10.0.0.2", 24800, 1920, 1080, false, false, 5000, 1970, 0⟩]
        ⟨"MSHR", 1, 24800, 1920, 1080, 0, "B"⟩ ∧ c.name = "B" ∧
        c.last_seen = 7000 ∧ c.ip = "10.0.0.2" ∧ c.port = 24800) ∧
    (⟨"A", "", 24800, 1920, 1080, true, false, 0, 0, 0⟩ : ComputerInfo) ∈
      reapStale "A" 10001
        [⟨"A", "", 24800, 1920, 1080, true, false, 0, 0, 0⟩,
         ⟨"B", "10.0.0.2", 24800, 1920, 1080, false, false, 0, 1970, 0⟩] ∧
    reapStale "A" 10001
        [⟨"A", "", 24800, 1920, 1080, true, false, 0, 0, 0⟩,
         ⟨"B", "10.0.0.2", 24800, 1920, 1080, false, false, 0, 1970, 0⟩] =
      [⟨"A", "", 24800, 1920, 1080, true, false, 0, 0, 0⟩] := by
  refine ⟨c9_discovery_contract.1 "A" 5000 "10.0.0.9" _ _ (by decide),
    c9_discovery_contract.2.2.2.1 "A" 7000 "10.0.0.2" _ _ (by decide) (by decide) (by decide),
    c9_discovery_contract.2.2.2.2.1 "A" 10001 _ _ (by decide) (by decide), ?_⟩
  decide

end InputShare
